import Mathlib

/-!
Zoe Web Scraper Assistant: the form controller of `static/index.js`

A shallow embedding of the page script.  The DOM elements the script holds
handles to, `localStorage`, and the two observable effect channels (`alert`
and `fetch`) are fields of one `State` record; every function and listener of
the script is a function on that record.

Modelling conventions
* A field of the record holds what the property reads, not what was assigned.
  The output area and the raw-HTML field are text areas (the script says so:
  `autoExpandTextarea(outputEl)`, "raw HTML textarea"): their `value` reads the
  assigned text with every CRLF and every CR as LF.  The URL and instruction
  controls are fixed by the markup; what their `value` reads after an
  assignment is given by the fields `urlSanitize` and `instructionSanitize`.
  `innerText`, `disabled` and `style` read what was assigned.
* `modelDescriptions[id]` finds the four own properties and, for any other
  name, what every object inherits; the text of the inherited properties is
  the field `inheritedText`.
* The model selector is a `<select>`: assigning its `value` selects the option
  with that value, and leaves no option selected (value `""`) when there is
  none.  The offered options are the field `modelOptions`.
* The radio group `inputType` is represented by the value of its checked
  radio, `none` when no radio is checked.
* `await` points are taken atomically: the answer of `fetch`, of `res.json()`
  and of `file.text()` is supplied by the caller.
* JavaScript strings are sequences of UTF-16 code units, Lean strings of
  Unicode scalars; strings with lone surrogates are outside the model.
* The `active` class of the `.input-mode-option` labels is presentation only
  and is not part of the record; `copyToClipboard` and `downloadOutput` act on
  the clipboard and on a download only and are left out.
-/

namespace ZoeScraper

/-! ## Strings: `String.prototype.trim` and `JSON.stringify` -/

/-- ECMAScript `WhiteSpace` and `LineTerminator` code points, the characters
`String.prototype.trim` strips. -/
def isJsWhiteSpace (c : Char) : Bool :=
  let n := c.toNat
  n == 0x0009 || n == 0x000A || n == 0x000B || n == 0x000C || n == 0x000D ||
  n == 0x0020 || n == 0x00A0 || n == 0x1680 || (0x2000 ≤ n && n ≤ 0x200A) ||
  n == 0x2028 || n == 0x2029 || n == 0x202F || n == 0x205F || n == 0x3000 ||
  n == 0xFEFF

/-- Strip leading and trailing white space from a character list. -/
def trimChars (cs : List Char) : List Char :=
  ((cs.dropWhile isJsWhiteSpace).reverse.dropWhile isJsWhiteSpace).reverse

/-- The method `String.prototype.trim`. -/
def trim (s : String) : String := ⟨trimChars s.data⟩

/-- Newline normalisation of a text area, one pass: a CR becomes LF, and an LF
that directly follows a CR is dropped.  The flag says whether the character
before was a CR. -/
def normalizeChars (afterCR : Bool) : List Char → List Char
  | [] => []
  | c :: rest =>
    if c = Char.ofNat 0x0D then Char.ofNat 0x0A :: normalizeChars true rest
    else if c = Char.ofNat 0x0A && afterCR then normalizeChars false rest
    else c :: normalizeChars false rest

/-- What `value` of a text area reads after `text` was assigned to it: `text`
with every CRLF pair and every remaining CR replaced by LF. -/
def normalizeNewlines (text : String) : String := ⟨normalizeChars false text.data⟩

/-- Lower-case hexadecimal digit of a number below sixteen. -/
def hexDigit (n : Nat) : Char :=
  if n < 10 then Char.ofNat (48 + n) else Char.ofNat (87 + n)

/-- One character of ECMAScript `QuoteJSONString`. -/
def quoteJSONChar (c : Char) : List Char :=
  let n := c.toNat
  if n = 0x08 then [Char.ofNat 0x5C, Char.ofNat 0x62]
  else if n = 0x09 then [Char.ofNat 0x5C, Char.ofNat 0x74]
  else if n = 0x0A then [Char.ofNat 0x5C, Char.ofNat 0x6E]
  else if n = 0x0C then [Char.ofNat 0x5C, Char.ofNat 0x66]
  else if n = 0x0D then [Char.ofNat 0x5C, Char.ofNat 0x72]
  else if n = 0x22 then [Char.ofNat 0x5C, Char.ofNat 0x22]
  else if n = 0x5C then [Char.ofNat 0x5C, Char.ofNat 0x5C]
  else if n < 0x20 then
    [Char.ofNat 0x5C, Char.ofNat 0x75, Char.ofNat 0x30, Char.ofNat 0x30,
      hexDigit (n / 16), hexDigit (n % 16)]
  else [c]

/-- ECMAScript `QuoteJSONString`: the JSON text of a string value. -/
def quoteJSONString (s : String) : String :=
  ⟨Char.ofNat 0x22 :: (s.data.flatMap quoteJSONChar ++ [Char.ofNat 0x22])⟩

/-- The text `JSON.stringify` gives for the members of an object whose values are strings. -/
def stringifyMembers : List (String × String) → String
  | [] => ""
  | [(k, v)] => quoteJSONString k ++ ":" ++ quoteJSONString v
  | (k, v) :: rest =>
      quoteJSONString k ++ ":" ++ quoteJSONString v ++ "," ++ stringifyMembers rest

/-- The text `JSON.stringify` gives for an object whose values are strings:
members in insertion order, no white space. -/
def stringify (members : List (String × String)) : String :=
  "\x7b" ++ stringifyMembers members ++ "\x7d"

/-! ## The page -/

/-- One call of `fetch`. -/
structure Request where
  url : String
  method : String
  headers : List (String × String)
  body : String
  deriving DecidableEq, Repr

/-- What `await res.json()` followed by reading `data.output` gives: the
promise rejects, or the read throws, with an error carrying `message`; or the
body is a JSON object whose `output` member is the string `value`.  Bodies that
parse to an object without a string `output` are outside the model. -/
inductive JsonResult where
  | rejected (message : String)
  | output (value : String)
  deriving DecidableEq, Repr

/-- What `await fetch(...)` gives: the promise rejects (transport failure)
with an error carrying `message`, or it resolves to a response. -/
inductive FetchResult where
  | rejected (message : String)
  | response (status : Nat) (json : JsonResult)
  deriving DecidableEq, Repr

/-- A `File` of a drop or of the file picker: declared media type and what
`file.text()` resolves to. -/
structure File where
  type : String
  text : String
  deriving DecidableEq, Repr

/-- What the surroundings of the script answer. -/
structure Env where
  /-- The answer of the network to a request. -/
  fetch : Request → FetchResult
  /-- The message of the `TypeError` raised by reading `.value` of `null`. -/
  nullReadMessage : String
  /-- The layout: `scrollHeight` of the output area for a given content. -/
  scrollHeight : String → Nat

/-- What `value` of a text control reads after an assignment: the value
sanitization of the control the markup declares (an `input` of some text type,
or a text area).  Every such control reads empty after the empty string was
assigned. -/
structure Sanitizer where
  /-- The text read after `text` was assigned. -/
  read : String → String
  /-- Emptying the control leaves it empty. -/
  read_empty : read "" = ""

/-- The elements the script reads and writes, `localStorage`, the alerts shown
and the requests issued so far. -/
structure State where
  /-- Property `outputEl.value`. -/
  outputValue : String
  /-- Property `outputEl.style.height`. -/
  outputHeight : String
  /-- Property `submitBtn.disabled`. -/
  submitDisabled : Bool
  /-- Property `submitBtn.innerText`. -/
  submitText : String
  /-- Property `urlInput.value`. -/
  urlValue : String
  /-- What `urlInput.value` reads after an assignment. -/
  urlSanitize : Sanitizer
  /-- Property `urlInput.disabled`. -/
  urlDisabled : Bool
  /-- Property `urlInputWrapper.style.display`. -/
  urlWrapperDisplay : String
  /-- Property `rawHtmlInput.value`. -/
  rawHtmlValue : String
  /-- Property `rawHtmlInput.disabled`. -/
  rawHtmlDisabled : Bool
  /-- Property `rawHtmlWrapper.style.display`. -/
  rawHtmlWrapperDisplay : String
  /-- Property `instructionInput.value`. -/
  instructionValue : String
  /-- What `instructionInput.value` reads after an assignment. -/
  instructionSanitize : Sanitizer
  /-- Values of the options of `modelSelect`. -/
  modelOptions : List String
  /-- Property `modelSelect.value`. -/
  modelValue : String
  /-- Property `modelDescEl.innerText`. -/
  modelDescText : String
  /-- The properties every object inherits from `Object.prototype`
  (`constructor`, `toString`, ...), by name, as the text they convert to;
  `none` for every other name. -/
  inheritedText : String → Option String
  /-- Value of the checked radio named `inputType`. -/
  inputType : Option String
  /-- Property `themeToggle.checked`. -/
  themeChecked : Bool
  /-- Attribute `data-theme` of the document element. -/
  dataTheme : Option String
  /-- Property `localStorage.getItem`. -/
  localStorage : String → Option String
  /-- Messages passed to `alert`, oldest first. -/
  alerts : List String
  /-- Calls of `fetch`, oldest first. -/
  requests : List Request

/-- The call `localStorage.setItem(key, value)`. -/
def setItem (s : State) (key value : String) : State :=
  { s with localStorage := fun k => if k = key then some value else s.localStorage k }

/-- JavaScript truthiness of what `localStorage.getItem` returns: `null` and
the empty string are falsy. -/
def truthy : Option String → Bool
  | none => false
  | some v => v != ""

/-- Assignment to `modelSelect.value`: the first option with that value
becomes the selected one; when no option has it none is selected and the value
reads `""`. -/
def setModelValue (s : State) (v : String) : State :=
  { s with modelValue := if v ∈ s.modelOptions then v else "" }

/-- The own properties of the object `modelDescriptions`. -/
def modelDescriptions : String → Option String
  | "nous-hermes" => some "🧠 Very good at following instructions. Ideal for product descriptions and structured outputs."
  | "mistral" => some "⚡ Fast, general-purpose model. Good for short, responsive tasks."
  | "llama3" => some "🧠🧠 Great for reasoning and modern use cases. Slightly slower but more accurate."
  | "openhermes" => some "🎨 Balanced summaries with a touch of creativity. Good for SEO/product listings."
  | _ => none

/-- The call `autoExpandTextarea(outputEl)`: height `auto`, then the scroll height in
pixels. -/
def autoExpandTextarea (env : Env) (s : State) : State :=
  { s with outputHeight := toString (env.scrollHeight s.outputValue) ++ "px" }

/-- Property `res.ok`: the status is in the range 200 to 299. -/
def ok (status : Nat) : Bool := 200 ≤ status && status ≤ 299

/-- The arguments of the `fetch` call of `submitData`, for the checked radio
value `inputType`. -/
def processRequest (s : State) (inputType : String) : Request :=
  let input_data := if inputType = "url" then trim s.urlValue else trim s.rawHtmlValue
  let instruction := s.instructionValue
  let model := s.modelValue
  { url := "/process"
    method := "POST"
    headers := [("Content-Type", "application/json")]
    body := stringify
      [("input_data", input_data), ("instruction", instruction), ("model", model)] }

/-- The `try` block of `submitData`: the state it leaves and, when it throws,
the message of the error. -/
def submitTry (env : Env) (s : State) : State × Option String :=
  match s.inputType with
  | none => (s, some env.nullReadMessage)
  | some inputType =>
    let req := processRequest s inputType
    let s1 := { s with requests := s.requests ++ [req] }
    match env.fetch req with
    | .rejected message => (s1, some message)
    | .response status json =>
      if !ok status then (s1, some ("Server error: " ++ toString status))
      else
        match json with
        | .rejected message => (s1, some message)
        | .output value => ({ s1 with outputValue := normalizeNewlines value }, none)

/-- The function `submitData()`. -/
def submitData (env : Env) (s : State) : State :=
  let s0 := { s with
    submitDisabled := true, submitText := "⏳ Thinking...", outputValue := normalizeNewlines "" }
  let tried := submitTry env s0
  let s1 :=
    match tried.2 with
    | some message =>
      { tried.1 with outputValue := normalizeNewlines ("❌ Error: " ++ message) }
    | none => tried.1
  autoExpandTextarea env { s1 with submitDisabled := false, submitText := "Submit" }

/-- The lookup `modelDescriptions[id] || ""`: an own property, else an
inherited one, else the empty string. -/
def describe (s : State) (id : String) : String :=
  match modelDescriptions id with
  | some text => text
  | none => (s.inheritedText id).getD ""

/-- The function `updateModelDescription()`. -/
def updateModelDescription (s : State) : State :=
  { s with modelDescText := describe s s.modelValue }

/-- The function `setInstruction(text)`. -/
def setInstruction (s : State) (text : String) : State :=
  setItem { s with instructionValue := s.instructionSanitize.read text } "instruction" text

/-- The function `updateInputModeUI()`. -/
def updateInputModeUI (s : State) : State :=
  match s.inputType with
  | none => s
  | some value =>
    if value = "url" then
      { s with
        urlWrapperDisplay := "block"
        urlDisabled := false
        rawHtmlWrapperDisplay := "none"
        rawHtmlDisabled := true
        rawHtmlValue := normalizeNewlines "" }
    else
      { s with
        urlWrapperDisplay := "none"
        urlDisabled := true
        urlValue := s.urlSanitize.read ""
        rawHtmlWrapperDisplay := "block"
        rawHtmlDisabled := false }

/-- Body shared by the `drop` and file-picker listeners, which differ in the
rejection message only. -/
def loadFile (rejection : String) (s : State) (file : Option File) : State :=
  match file with
  | some f =>
    if f.type = "text/html" then
      let s1 := { s with rawHtmlValue := normalizeNewlines f.text }
      let s2 := { s1 with alerts := s1.alerts ++ ["HTML file loaded into raw HTML textarea."] }
      updateInputModeUI { s2 with inputType := some "raw" }
    else { s with alerts := s.alerts ++ [rejection] }
  | none => { s with alerts := s.alerts ++ [rejection] }

/-- The `drop` listener of the drop zone; `file` is `e.dataTransfer.files[0]`. -/
def dropListener (s : State) (file : Option File) : State :=
  loadFile "Please drop a valid HTML file." s file

/-- The `change` listener of the file picker; `file` is `e.target.files[0]`. -/
def fileInputListener (s : State) (file : Option File) : State :=
  loadFile "Please select a valid HTML file." s file

/-- The `change` listener of the `inputType` radios. -/
def inputTypeListener (s : State) : State := updateInputModeUI s

/-- The `input` listener of the URL field. -/
def urlInputListener (s : State) : State := setItem s "url" s.urlValue

/-- The `input` listener of the raw-HTML field. -/
def rawHtmlInputListener (s : State) : State := setItem s "rawHtml" s.rawHtmlValue

/-- The `input` listener of the instruction field. -/
def instructionInputListener (s : State) : State :=
  setItem s "instruction" s.instructionValue

/-- The `change` listener of the model selector. -/
def modelSelectListener (s : State) : State :=
  updateModelDescription (setItem s "model" s.modelValue)

/-- The `change` listener of the theme switch. -/
def themeToggleListener (s : State) : State :=
  let isDark := s.themeChecked
  let s1 := { s with dataTheme := some (if isDark then "dark" else "light") }
  setItem s1 "theme" (if isDark then "dark" else "light")

/-- Restore of the URL field: `if (getItem("url")) urlInput.value = getItem("url")`. -/
def restoreUrl (s : State) : State :=
  if truthy (s.localStorage "url")
  then { s with urlValue := s.urlSanitize.read ((s.localStorage "url").getD "") } else s

/-- Restore of the raw-HTML field. -/
def restoreRawHtml (s : State) : State :=
  if truthy (s.localStorage "rawHtml")
  then { s with rawHtmlValue := normalizeNewlines ((s.localStorage "rawHtml").getD "") }
  else s

/-- Restore of the instruction field. -/
def restoreInstruction (s : State) : State :=
  if truthy (s.localStorage "instruction")
  then { s with
    instructionValue := s.instructionSanitize.read ((s.localStorage "instruction").getD "") }
  else s

/-- Restore of the model selector, with its description. -/
def restoreModel (s : State) : State :=
  if truthy (s.localStorage "model")
  then updateModelDescription (setModelValue s ((s.localStorage "model").getD "")) else s

/-- Restore of the theme: the saved theme or `light`, on the document element
and on the switch. -/
def restoreTheme (s : State) : State :=
  let savedTheme := if truthy (s.localStorage "theme")
    then (s.localStorage "theme").getD "" else "light"
  { s with dataTheme := some savedTheme, themeChecked := savedTheme == "dark" }

/-- The restore block of the `DOMContentLoaded` listener, statement by
statement. -/
def restoreSaved (s : State) : State :=
  restoreTheme (restoreModel (restoreInstruction (restoreRawHtml (restoreUrl s))))

/-- The `DOMContentLoaded` listener: restore, then the initial calls.  The
argument is the page as the markup defines it together with the store. -/
def domContentLoaded (env : Env) (s : State) : State :=
  autoExpandTextarea env (updateModelDescription (updateInputModeUI (restoreSaved s)))

/-- A page load: the elements as the markup `page` defines them, the store as
the previous page `old` left it, then the `DOMContentLoaded` listener. -/
def reload (env : Env) (page old : State) : State :=
  domContentLoaded env { page with localStorage := old.localStorage }

/-! ## User actions

An action is what the browser does to the element followed by the listener the
script registered for it. -/

/-- What can happen to the page after it has loaded. -/
inductive Action where
  /-- The radio with this value is chosen. -/
  | chooseInputType (value : String)
  /-- The text `text` is typed or pasted as the content of the URL field. -/
  | editUrl (text : String)
  /-- The text `text` is typed or pasted as the content of the raw-HTML field. -/
  | editRawHtml (text : String)
  /-- The text `text` is typed or pasted as the content of the instruction field. -/
  | editInstruction (text : String)
  /-- The option with this value is picked in the model selector. -/
  | chooseModel (value : String)
  /-- Files are dropped on the drop zone. -/
  | drop (file : Option File)
  /-- Files are chosen in the file picker. -/
  | pick (file : Option File)
  /-- A preset button calls `setInstruction`. -/
  | preset (text : String)
  /-- The submit button calls `submitData`. -/
  | submit (env : Env)
  /-- The theme switch is flipped. -/
  | toggleTheme

/-- One action.  A disabled field takes no edits and the selector offers only
its options, so those actions leave the page as it is. -/
def act (s : State) : Action → State
  | .chooseInputType value => inputTypeListener { s with inputType := some value }
  | .editUrl text =>
      if s.urlDisabled then s
      else urlInputListener { s with urlValue := s.urlSanitize.read text }
  | .editRawHtml text =>
      if s.rawHtmlDisabled then s
      else rawHtmlInputListener { s with rawHtmlValue := normalizeNewlines text }
  | .editInstruction text =>
      instructionInputListener { s with instructionValue := s.instructionSanitize.read text }
  | .chooseModel value =>
      if value ∈ s.modelOptions then modelSelectListener (setModelValue s value) else s
  | .drop file => dropListener s file
  | .pick file => fileInputListener s file
  | .preset text => setInstruction s text
  | .submit env => submitData env s
  | .toggleTheme => themeToggleListener { s with themeChecked := !s.themeChecked }

/-- A sequence of actions, first to last. -/
def run (s : State) (actions : List Action) : State := actions.foldl act s

/-! ## Vocabulary of the properties -/

/-- The value a control shows after the restore block: the stored item, as
the control reads it back, when there is one and it is not the empty string,
else the value it had. -/
def savedOr (read : String → String) (item : Option String) (current : String) : String :=
  match item with
  | some v => if v = "" then current else read v
  | none => current

/-- The value the model selector shows after the restore block: the stored
item when it is not empty and is the value of an option, no selection when it
is not empty and no option has it, else the value it had. -/
def savedModel (item : Option String) (options : List String) (current : String) : String :=
  match item with
  | some v => if v = "" then current else if v ∈ options then v else ""
  | none => current

/-- The switch agrees with the document theme: checked exactly when the theme
is `dark`. -/
def ThemeSync (s : State) : Prop :=
  s.themeChecked = true ↔ s.dataTheme = some "dark"

/-- Mutual exclusion of the two input fields: with a radio checked, the field
of the checked mode is enabled, the other one is disabled and empty. -/
def ModeInvariant (s : State) : Prop :=
  ∀ value, s.inputType = some value →
    (value = "url" →
      s.urlDisabled = false ∧ s.rawHtmlDisabled = true ∧ s.rawHtmlValue = "") ∧
    (value ≠ "url" →
      s.rawHtmlDisabled = false ∧ s.urlDisabled = true ∧ s.urlValue = "")

/-- A page for concrete runs: URL mode checked, both fields enabled, the four
models offered, an empty store. -/
def examplePage : State :=
  { outputValue := ""
    outputHeight := ""
    submitDisabled := false
    submitText := "Submit"
    urlValue := ""
    urlSanitize := ⟨fun text => text, rfl⟩
    urlDisabled := false
    urlWrapperDisplay := "block"
    rawHtmlValue := ""
    rawHtmlDisabled := false
    rawHtmlWrapperDisplay := "block"
    instructionValue := ""
    instructionSanitize := ⟨fun text => text, rfl⟩
    modelOptions := ["nous-hermes", "mistral", "llama3", "openhermes"]
    modelValue := "nous-hermes"
    modelDescText := ""
    inheritedText := fun name =>
      if name = "constructor" then some "function Object() \x7b [native code] \x7d" else none
    inputType := some "url"
    themeChecked := false
    dataTheme := none
    localStorage := fun _ => none
    alerts := []
    requests := [] }

/-- The example page with another label on the submit control. -/
def relabelled (label : String) : State :=
  { examplePage with submitText := label }

/-- The example page while an earlier submission is still in flight. -/
def pendingPage : State :=
  { examplePage with submitDisabled := true, submitText := "⏳ Thinking..." }

/-- The example page with no radio checked. -/
def uncheckedPage : State :=
  { examplePage with inputType := none }

/-- The example page in raw-HTML mode with padded field values. -/
def filledPage : State :=
  { examplePage with
    inputType := some "raw"
    urlValue := " https://example.com "
    rawHtmlValue := "\n <p>Hi</p>\t"
    instructionValue := " keep  spaces "
    modelValue := "llama3" }

/-- A page whose markup presets an instruction, loaded with a store that holds
an emptied instruction and a model the selector does not offer. -/
def storedPage : State :=
  { examplePage with
    instructionValue := "Summarize the page"
    localStorage := fun key =>
      if key = "instruction" then some ""
      else if key = "model" then some "retired-model"
      else none }

/-- The example page in raw-HTML mode, loaded with a store whose raw HTML has a
CRLF line break. -/
def crlfStoredPage : State :=
  { examplePage with
    inputType := some "raw"
    localStorage := fun key => if key = "rawHtml" then some "a\r\nb" else none }

/-- Surroundings for concrete runs: every request is answered by `answer`. -/
def exampleEnv (answer : FetchResult) : Env :=
  { fetch := fun _ => answer
    nullReadMessage := "Cannot read properties of null (reading 'value')"
    scrollHeight := fun content => 20 + content.length }


/-! ## Text areas -/

/-- An emptied text area reads empty. -/
theorem normalizeNewlines_empty : normalizeNewlines "" = "" := rfl

/-- Text without a CR is read back as it is. -/
theorem normalizeChars_of_no_cr (l : List Char) (h : Char.ofNat 0x0D ∉ l) :
    normalizeChars false l = l := by
  induction l with
  | nil => rfl
  | cons c rest ih =>
    have hc : c ≠ Char.ofNat 0x0D := fun e => h (e ▸ List.mem_cons_self _ _)
    have hrest : Char.ofNat 0x0D ∉ rest := fun m => h (List.mem_cons_of_mem _ m)
    simp [normalizeChars, hc, ih hrest]

/-- A prefix without a CR is read back as it is, whatever follows. -/
theorem normalizeChars_append (a b : List Char) (h : Char.ofNat 0x0D ∉ a) :
    normalizeChars false (a ++ b) = a ++ normalizeChars false b := by
  induction a with
  | nil => rfl
  | cons c rest ih =>
    have hc : c ≠ Char.ofNat 0x0D := fun e => h (e ▸ List.mem_cons_self _ _)
    have hrest : Char.ofNat 0x0D ∉ rest := fun m => h (List.mem_cons_of_mem _ m)
    simp [normalizeChars, hc, ih hrest]

/-- A text without a CR is read back from a text area as it is. -/
theorem normalizeNewlines_of_no_cr (text : String) (h : Char.ofNat 0x0D ∉ text.data) :
    normalizeNewlines text = text := by
  unfold normalizeNewlines
  rw [normalizeChars_of_no_cr _ h]

/-- A text area reads a prefix without a CR as it is, whatever follows. -/
theorem normalizeNewlines_append (a b : String) (h : Char.ofNat 0x0D ∉ a.data) :
    normalizeNewlines (a ++ b) = a ++ normalizeNewlines b := by
  apply String.ext
  simp only [normalizeNewlines, String.data_append]
  exact normalizeChars_append _ _ h

/-- The decimal digits of a number hold no CR. -/
theorem toDigitsCore_no_cr (fuel : Nat) : ∀ (n : Nat) (ds : List Char),
    Char.ofNat 0x0D ∉ ds → Char.ofNat 0x0D ∉ Nat.toDigitsCore 10 fuel n ds := by
  have hdigit : ∀ d, d < 10 → Nat.digitChar d ≠ Char.ofNat 0x0D := by decide
  induction fuel with
  | zero => intro n ds h; exact h
  | succ fuel ih =>
    intro n ds h
    have hcons : Char.ofNat 0x0D ∉ Nat.digitChar (n % 10) :: ds := by
      intro hm
      rcases List.mem_cons.mp hm with e | m
      · exact hdigit (n % 10) (Nat.mod_lt _ (by decide)) e.symm
      · exact h m
    unfold Nat.toDigitsCore
    simp only
    split_ifs
    · exact hcons
    · exact ih _ _ hcons

/-- The decimal text of a number holds no CR. -/
theorem toString_no_cr (n : Nat) : Char.ofNat 0x0D ∉ (toString n).data := by
  show Char.ofNat 0x0D ∉ (Nat.repr n).data
  unfold Nat.repr Nat.toDigits
  exact toDigitsCore_no_cr _ _ _ (by simp)

/-! ## Submission -/

/-- The `try` block entered with a checked radio, by the answer of the
network. -/
theorem submitTry_of_checked (env : Env) (s : State) (mode : String)
    (h : s.inputType = some mode) :
    submitTry env s =
      match env.fetch (processRequest s mode) with
      | .rejected message =>
        ({ s with requests := s.requests ++ [processRequest s mode] }, some message)
      | .response status json =>
        if !ok status then
          ({ s with requests := s.requests ++ [processRequest s mode] },
            some ("Server error: " ++ toString status))
        else
          match json with
          | .rejected message =>
            ({ s with requests := s.requests ++ [processRequest s mode] }, some message)
          | .output value =>
            ({ s with
                requests := s.requests ++ [processRequest s mode]
                outputValue := normalizeNewlines value },
              none) := by
  unfold submitTry
  rw [h]

/-- The `finally` block enables the submit control. -/
theorem submitData_submitDisabled (env : Env) (s : State) :
    (submitData env s).submitDisabled = false := by
  simp [submitData, autoExpandTextarea]

/-- The `finally` block writes the label `Submit`. -/
theorem submitData_submitText (env : Env) (s : State) :
    (submitData env s).submitText = "Submit" := by
  simp [submitData, autoExpandTextarea]

/-- The output display after a submission whose `try` block is entered with a
checked radio, by the answer of the network. -/
theorem submitData_outputValue (env : Env) (s : State) (mode : String)
    (h : s.inputType = some mode) :
    (submitData env s).outputValue =
      match env.fetch (processRequest s mode) with
      | .rejected message => normalizeNewlines ("❌ Error: " ++ message)
      | .response status json =>
        if ok status then
          match json with
          | .rejected message => normalizeNewlines ("❌ Error: " ++ message)
          | .output value => normalizeNewlines value
        else normalizeNewlines ("❌ Error: " ++ ("Server error: " ++ toString status)) := by
  have h0 : State.inputType
      { s with
        submitDisabled := true, submitText := "⏳ Thinking...", outputValue := normalizeNewlines "" }
      = some mode := h
  have hreq : processRequest
      { s with
        submitDisabled := true, submitText := "⏳ Thinking...", outputValue := normalizeNewlines "" }
      mode
      = processRequest s mode := rfl
  simp only [submitData, submitTry_of_checked env _ mode h0, hreq]
  cases hf : env.fetch (processRequest s mode) with
  | rejected message => simp [autoExpandTextarea]
  | response status json =>
    cases hok : ok status with
    | false => simp [autoExpandTextarea, hok]
    | true =>
      cases json with
      | rejected message => simp [autoExpandTextarea, hok]
      | output value => simp [autoExpandTextarea, hok]

/-- With a radio checked, one request is appended to those issued. -/
theorem submitData_requests (env : Env) (s : State) (mode : String)
    (h : s.inputType = some mode) :
    (submitData env s).requests = s.requests ++ [processRequest s mode] := by
  have h0 : State.inputType
      { s with
        submitDisabled := true, submitText := "⏳ Thinking...", outputValue := normalizeNewlines "" }
      = some mode := h
  have hreq : processRequest
      { s with
        submitDisabled := true, submitText := "⏳ Thinking...", outputValue := normalizeNewlines "" }
      mode
      = processRequest s mode := rfl
  simp only [submitData, submitTry_of_checked env _ mode h0, hreq]
  cases hf : env.fetch (processRequest s mode) with
  | rejected message => simp [autoExpandTextarea]
  | response status json =>
    cases hok : ok status with
    | false => simp [autoExpandTextarea, hok]
    | true =>
      cases json with
      | rejected message => simp [autoExpandTextarea, hok]
      | output value => simp [autoExpandTextarea, hok]

/-- With no radio checked the null read is caught and nothing is sent. -/
theorem submitData_unchecked (env : Env) (s : State) (h : s.inputType = none) :
    (submitData env s).outputValue = normalizeNewlines ("❌ Error: " ++ env.nullReadMessage) ∧
    (submitData env s).requests = s.requests := by
  simp [submitData, submitTry, autoExpandTextarea, h]

/-- The failure marker holds no CR, so the output area reads it as written
and normalises the message behind it. -/
theorem normalizeNewlines_marker (message : String) :
    normalizeNewlines ("❌ Error: " ++ message) = "❌ Error: " ++ normalizeNewlines message :=
  normalizeNewlines_append _ _ (by decide)

/-- C1 (as amended): when a radio is checked and the endpoint answers the
request with a 2xx status and the body `{"output": X}`, the output display ends
with `X` read as a text area reads it, every CRLF and CR as LF, which is
exactly `X` when `X` holds no CR; the submit control is enabled, and its label
is the fixed text `Submit`, which is the label it had before the submission
precisely when that label was `Submit`. -/
theorem submitData_success (env : Env) (s : State) (mode : String) (status : Nat)
    (X : String) (hmode : s.inputType = some mode)
    (hres : env.fetch (processRequest s mode) = .response status (.output X))
    (hok : ok status = true) :
    (submitData env s).outputValue = normalizeNewlines X ∧
    (Char.ofNat 0x0D ∉ X.data → (submitData env s).outputValue = X) ∧
    (submitData env s).submitDisabled = false ∧
    (submitData env s).submitText = "Submit" ∧
    ((submitData env s).submitText = s.submitText ↔ s.submitText = "Submit") := by
  have hout : (submitData env s).outputValue = normalizeNewlines X := by
    rw [submitData_outputValue env s mode hmode, hres]
    simp [hok]
  refine ⟨hout, ?_, submitData_submitDisabled env s, submitData_submitText env s, ?_⟩
  · intro hcr
    rw [hout, normalizeNewlines_of_no_cr X hcr]
  · rw [submitData_submitText env s]
    exact eq_comm

/-- C1, witness: the example page, answered `200` with output `X`. -/
theorem submitData_success_witness :
    (submitData (exampleEnv (.response 200 (.output "X"))) examplePage).outputValue
      = normalizeNewlines "X" ∧
    (Char.ofNat 0x0D ∉ "X".data →
      (submitData (exampleEnv (.response 200 (.output "X"))) examplePage).outputValue = "X") ∧
    (submitData (exampleEnv (.response 200 (.output "X"))) examplePage).submitDisabled = false ∧
    (submitData (exampleEnv (.response 200 (.output "X"))) examplePage).submitText = "Submit" ∧
    ((submitData (exampleEnv (.response 200 (.output "X"))) examplePage).submitText
        = examplePage.submitText ↔ examplePage.submitText = "Submit") :=
  submitData_success (exampleEnv (.response 200 (.output "X"))) examplePage "url" 200 "X"
    rfl rfl (by decide)

/-- C1, counterexample: a submission answered `200` with output `X` ends with
the label `Submit` whatever the label was when it started: started on a page
whose control reads `Run`, and started while an earlier submission is in flight
(label `⏳ Thinking...`), the final label is not the one before the submission.
And answered with the output `a\r\nb`, the output display reads `a\nb`. -/
theorem submitData_label_not_kept :
    ok 200 = true ∧
    (relabelled "Run").inputType = some "url" ∧
    (exampleEnv (.response 200 (.output "X"))).fetch (processRequest (relabelled "Run") "url")
      = .response 200 (.output "X") ∧
    (submitData (exampleEnv (.response 200 (.output "X"))) (relabelled "Run")).outputValue = "X" ∧
    (relabelled "Run").submitText = "Run" ∧
    (submitData (exampleEnv (.response 200 (.output "X"))) (relabelled "Run")).submitText
      = "Submit" ∧
    (submitData (exampleEnv (.response 200 (.output "X"))) (relabelled "Run")).submitText
      ≠ (relabelled "Run").submitText ∧
    (submitData (exampleEnv (.response 200 (.output "X"))) pendingPage).submitText
      ≠ pendingPage.submitText ∧
    (submitData (exampleEnv (.response 200 (.output "a\r\nb"))) examplePage).outputValue
      = "a\nb" ∧
    (submitData (exampleEnv (.response 200 (.output "a\r\nb"))) examplePage).outputValue
      ≠ "a\r\nb" := by
  decide

/-- C2 (as amended): a failed submission ends with the failure marker followed
by the message of the error, the message read as a text area reads it, every
CRLF and CR as LF.  With no radio checked the message is that of the null
read; with a radio checked it is the message of the transport failure, or
`Server error: ` followed by the status for a status outside 200 to 299, or
the message of the body parse failure.  The status message is always a
substring of the output display; another message is one when it holds no CR. -/
theorem submitData_failure (env : Env) (s : State) :
    (s.inputType = none →
      (submitData env s).outputValue
        = "❌ Error: " ++ normalizeNewlines env.nullReadMessage) ∧
    (∀ mode, s.inputType = some mode →
      (∀ m, env.fetch (processRequest s mode) = .rejected m →
        (submitData env s).outputValue = "❌ Error: " ++ normalizeNewlines m ∧
        (Char.ofNat 0x0D ∉ m.data →
          (submitData env s).outputValue = "❌ Error: " ++ m ∧
          m.data <:+: (submitData env s).outputValue.data)) ∧
      (∀ status json, env.fetch (processRequest s mode) = .response status json →
        ok status = false →
        (submitData env s).outputValue = "❌ Error: " ++ ("Server error: " ++ toString status) ∧
        ("Server error: " ++ toString status).data <:+: (submitData env s).outputValue.data) ∧
      (∀ status m, env.fetch (processRequest s mode) = .response status (.rejected m) →
        ok status = true →
        (submitData env s).outputValue = "❌ Error: " ++ normalizeNewlines m ∧
        (Char.ofNat 0x0D ∉ m.data →
          (submitData env s).outputValue = "❌ Error: " ++ m ∧
          m.data <:+: (submitData env s).outputValue.data))) := by
  have hinfix : ∀ a b : String, b.data <:+: (a ++ b).data := by
    intro a b
    rw [String.data_append]
    exact (List.suffix_append a.data b.data).isInfix
  have hplain : ∀ m : String, Char.ofNat 0x0D ∉ m.data →
      (submitData env s).outputValue = "❌ Error: " ++ normalizeNewlines m →
      (submitData env s).outputValue = "❌ Error: " ++ m ∧
      m.data <:+: (submitData env s).outputValue.data := by
    intro m hcr hout
    rw [normalizeNewlines_of_no_cr m hcr] at hout
    exact ⟨hout, hout ▸ hinfix _ _⟩
  refine ⟨fun h => ?_, ?_⟩
  · rw [(submitData_unchecked env s h).1, normalizeNewlines_marker]
  intro mode hmode
  refine ⟨?_, ?_, ?_⟩
  · intro m hres
    have hout : (submitData env s).outputValue = "❌ Error: " ++ normalizeNewlines m := by
      rw [submitData_outputValue env s mode hmode, hres]
      exact normalizeNewlines_marker m
    exact ⟨hout, fun hcr => hplain m hcr hout⟩
  · intro status json hres hok
    have hcr : Char.ofNat 0x0D ∉ ("Server error: " ++ toString status).data := by
      rw [String.data_append, List.mem_append]
      rintro (h | h)
      · revert h
        decide
      · exact toString_no_cr status h
    have hout : (submitData env s).outputValue
        = "❌ Error: " ++ normalizeNewlines ("Server error: " ++ toString status) := by
      rw [submitData_outputValue env s mode hmode, hres]
      simp only [hok]
      exact normalizeNewlines_marker _
    exact hplain _ hcr hout
  · intro status m hres hok
    have hout : (submitData env s).outputValue = "❌ Error: " ++ normalizeNewlines m := by
      rw [submitData_outputValue env s mode hmode, hres]
      simp only [hok]
      exact normalizeNewlines_marker m
    exact ⟨hout, fun hcr => hplain m hcr hout⟩

/-- C2, witness: status `500` gives `❌ Error: Server error: 500`, and a
transport failure with message `boom` gives `❌ Error: boom`. -/
theorem submitData_failure_witness :
    (submitData (exampleEnv (.response 500 (.output "ignored"))) examplePage).outputValue
      = "❌ Error: Server error: 500" ∧
    "Server error: 500".data <:+:
      (submitData (exampleEnv (.response 500 (.output "ignored"))) examplePage).outputValue.data ∧
    (submitData (exampleEnv (.rejected "boom")) examplePage).outputValue = "❌ Error: boom" ∧
    "boom".data <:+: (submitData (exampleEnv (.rejected "boom")) examplePage).outputValue.data :=
  ⟨((submitData_failure (exampleEnv (.response 500 (.output "ignored"))) examplePage).2
      "url" rfl).2.1 500 (.output "ignored") rfl (by decide) |>.1,
   ((submitData_failure (exampleEnv (.response 500 (.output "ignored"))) examplePage).2
      "url" rfl).2.1 500 (.output "ignored") rfl (by decide) |>.2,
   (((submitData_failure (exampleEnv (.rejected "boom")) examplePage).2 "url" rfl).1
      "boom" rfl).2 (by decide) |>.1,
   (((submitData_failure (exampleEnv (.rejected "boom")) examplePage).2 "url" rfl).1
      "boom" rfl).2 (by decide) |>.2⟩

/-- C2, counterexample: a transport failure raised with the message `bo\rom`
ends with the output display reading `❌ Error: bo\nom`, which is not the
marker followed by the message and does not contain the message. -/
theorem submitData_failure_cr_message :
    examplePage.inputType = some "url" ∧
    (exampleEnv (.rejected "bo\rom")).fetch (processRequest examplePage "url")
      = .rejected "bo\rom" ∧
    (submitData (exampleEnv (.rejected "bo\rom")) examplePage).outputValue
      = "❌ Error: bo\nom" ∧
    (submitData (exampleEnv (.rejected "bo\rom")) examplePage).outputValue
      ≠ "❌ Error: " ++ "bo\rom" ∧
    ¬ ("bo\rom".data <:+:
      (submitData (exampleEnv (.rejected "bo\rom")) examplePage).outputValue.data) := by
  decide

/-- C3 (as amended): whatever the starting state and the outcome (a radio
checked or not, transport failure, any status, body parsed or not),
`submitData` ends with the submit control enabled and labelled with the fixed
text `Submit`, which is not the in-progress label; when the control read
`Submit` before, its label is the one before. -/
theorem submitData_reenables (env : Env) (s : State) :
    (submitData env s).submitDisabled = false ∧
    (submitData env s).submitText = "Submit" ∧
    (submitData env s).submitText ≠ "⏳ Thinking..." ∧
    (s.submitText = "Submit" → (submitData env s).submitText = s.submitText) := by
  refine ⟨submitData_submitDisabled env s, submitData_submitText env s, ?_, ?_⟩
  · rw [submitData_submitText env s]
    decide
  · intro h
    rw [submitData_submitText env s, h]

/-- C3, counterexample: on a page whose submit control reads `Run`, a
submission that fails in transport, one answered `500`, one whose body does
not parse and one started with no radio checked each end with the control
enabled and reading `Submit`, not `Run`: the label is not restored. -/
theorem submitData_label_lost_on_failure :
    (relabelled "Run").submitText = "Run" ∧
    (submitData (exampleEnv (.rejected "boom")) (relabelled "Run")).submitDisabled = false ∧
    (submitData (exampleEnv (.rejected "boom")) (relabelled "Run")).submitText
      ≠ (relabelled "Run").submitText ∧
    (submitData (exampleEnv (.response 500 (.output "ignored"))) (relabelled "Run")).submitText
      ≠ (relabelled "Run").submitText ∧
    (submitData (exampleEnv (.response 200 (.rejected "Unexpected token"))) (relabelled "Run")).submitText
      ≠ (relabelled "Run").submitText ∧
    (submitData (exampleEnv (.rejected "boom"))
      { relabelled "Run" with inputType := none }).submitText
      ≠ (relabelled "Run").submitText := by
  decide

/-- C4: with a radio checked, `submitData` calls `fetch` exactly once, with
`/process`, method `POST`, the one header `Content-Type: application/json`, and
as body the JSON text of the object with the members `input_data`,
`instruction` and `model`, in this order: `input_data` the trimmed value of the
URL field when the checked radio is `url` and of the raw-HTML field otherwise,
`instruction` and `model` the values of their controls as they are. -/
theorem submitData_posts_once (env : Env) (s : State) (mode : String)
    (hmode : s.inputType = some mode) :
    (submitData env s).requests = s.requests ++
      [{ url := "/process"
         method := "POST"
         headers := [("Content-Type", "application/json")]
         body := stringify
           [("input_data", if mode = "url" then trim s.urlValue else trim s.rawHtmlValue),
            ("instruction", s.instructionValue),
            ("model", s.modelValue)] }] := by
  rw [submitData_requests env s mode hmode]
  rfl

/-- C4, witness: in raw-HTML mode the one request carries the trimmed raw HTML
and the instruction with its spaces. -/
theorem submitData_posts_once_witness :
    (submitData (exampleEnv (.rejected "offline")) filledPage).requests = filledPage.requests ++
      [{ url := "/process"
         method := "POST"
         headers := [("Content-Type", "application/json")]
         body := stringify
           [("input_data",
              if "raw" = "url" then trim filledPage.urlValue else trim filledPage.rawHtmlValue),
            ("instruction", filledPage.instructionValue),
            ("model", filledPage.modelValue)] }] ∧
    (submitData (exampleEnv (.rejected "offline")) filledPage).requests =
      [{ url := "/process"
         method := "POST"
         headers := [("Content-Type", "application/json")]
         body := "\x7b\"input_data\":\"<p>Hi</p>\",\"instruction\":\" keep  spaces \",\"model\":\"llama3\"\x7d" }] :=
  ⟨submitData_posts_once (exampleEnv (.rejected "offline")) filledPage "raw" rfl, by decide⟩

/-! ## Input mode and file loading -/

/-- C5: `updateInputModeUI` run with the raw-HTML radio checked leaves the URL
field disabled and empty and the raw-HTML field enabled with its value; run
with the URL radio checked it leaves the raw-HTML field disabled and empty and
the URL field enabled with its value.  Choosing a radio runs exactly this. -/
theorem updateInputModeUI_exclusive (s : State) :
    (s.inputType = some "raw" →
      (updateInputModeUI s).urlDisabled = true ∧
      (updateInputModeUI s).urlValue = "" ∧
      (updateInputModeUI s).rawHtmlDisabled = false ∧
      (updateInputModeUI s).rawHtmlValue = s.rawHtmlValue) ∧
    (s.inputType = some "url" →
      (updateInputModeUI s).rawHtmlDisabled = true ∧
      (updateInputModeUI s).rawHtmlValue = "" ∧
      (updateInputModeUI s).urlDisabled = false ∧
      (updateInputModeUI s).urlValue = s.urlValue) ∧
    (∀ value, act s (.chooseInputType value)
      = updateInputModeUI { s with inputType := some value }) := by
  refine ⟨?_, ?_, fun _ => rfl⟩
  · intro h
    simp [updateInputModeUI, h, s.urlSanitize.read_empty]
  · intro h
    simp [updateInputModeUI, h, normalizeNewlines_empty]

/-- C5, witness: the filled page has the raw radio checked, the example page
the URL radio. -/
theorem updateInputModeUI_exclusive_witness :
    ((updateInputModeUI filledPage).urlDisabled = true ∧
      (updateInputModeUI filledPage).urlValue = "" ∧
      (updateInputModeUI filledPage).rawHtmlDisabled = false ∧
      (updateInputModeUI filledPage).rawHtmlValue = filledPage.rawHtmlValue) ∧
    ((updateInputModeUI examplePage).rawHtmlDisabled = true ∧
      (updateInputModeUI examplePage).rawHtmlValue = "" ∧
      (updateInputModeUI examplePage).urlDisabled = false ∧
      (updateInputModeUI examplePage).urlValue = examplePage.urlValue) :=
  ⟨(updateInputModeUI_exclusive filledPage).1 rfl,
   (updateInputModeUI_exclusive examplePage).2.1 rfl⟩

/-- C6 (as amended): for the `drop` listener and the file-picker listener
alike, a file declared `text/html` ends in the raw-HTML field holding the text
of the file as a text area reads it, every CRLF and CR as LF, which is the full
text when the file holds no CR; the raw radio is checked, the raw-HTML field
enabled, the URL field disabled and the success alert shown.  No file, or a
file declared anything else, changes nothing of the page or the store and
shows the rejection alert. -/
theorem loadFile_accepts_html_only (s : State) (file : Option File) :
    (∀ f, file = some f → f.type = "text/html" →
      ((dropListener s file).rawHtmlValue = normalizeNewlines f.text ∧
        (Char.ofNat 0x0D ∉ f.text.data → (dropListener s file).rawHtmlValue = f.text) ∧
        (dropListener s file).inputType = some "raw" ∧
        (dropListener s file).rawHtmlDisabled = false ∧
        (dropListener s file).urlDisabled = true ∧
        (dropListener s file).alerts
          = s.alerts ++ ["HTML file loaded into raw HTML textarea."]) ∧
      ((fileInputListener s file).rawHtmlValue = normalizeNewlines f.text ∧
        (Char.ofNat 0x0D ∉ f.text.data → (fileInputListener s file).rawHtmlValue = f.text) ∧
        (fileInputListener s file).inputType = some "raw" ∧
        (fileInputListener s file).rawHtmlDisabled = false ∧
        (fileInputListener s file).urlDisabled = true ∧
        (fileInputListener s file).alerts
          = s.alerts ++ ["HTML file loaded into raw HTML textarea."])) ∧
    ((file = none ∨ ∃ f, file = some f ∧ f.type ≠ "text/html") →
      dropListener s file
        = { s with alerts := s.alerts ++ ["Please drop a valid HTML file."] } ∧
      fileInputListener s file
        = { s with alerts := s.alerts ++ ["Please select a valid HTML file."] }) := by
  constructor
  · intro f hfile htype
    subst hfile
    have hplain : Char.ofNat 0x0D ∉ f.text.data → normalizeNewlines f.text = f.text :=
      normalizeNewlines_of_no_cr f.text
    simp [dropListener, fileInputListener, loadFile, updateInputModeUI, htype]
    exact hplain
  · rintro (hnone | ⟨f, hfile, htype⟩)
    · subst hnone
      simp [dropListener, fileInputListener, loadFile]
    · subst hfile
      simp [dropListener, fileInputListener, loadFile, htype]

/-- C6, witness: an HTML file dropped on the example page, and a PNG. -/
theorem loadFile_accepts_html_only_witness :
    ((dropListener examplePage (some ⟨"text/html", "<b>x</b>"⟩)).rawHtmlValue
        = normalizeNewlines "<b>x</b>" ∧
      (Char.ofNat 0x0D ∉ "<b>x</b>".data →
        (dropListener examplePage (some ⟨"text/html", "<b>x</b>"⟩)).rawHtmlValue = "<b>x</b>") ∧
      (dropListener examplePage (some ⟨"text/html", "<b>x</b>"⟩)).inputType = some "raw" ∧
      (dropListener examplePage (some ⟨"text/html", "<b>x</b>"⟩)).rawHtmlDisabled = false ∧
      (dropListener examplePage (some ⟨"text/html", "<b>x</b>"⟩)).urlDisabled = true ∧
      (dropListener examplePage (some ⟨"text/html", "<b>x</b>"⟩)).alerts
        = examplePage.alerts ++ ["HTML file loaded into raw HTML textarea."]) ∧
    dropListener examplePage (some ⟨"image/png", "PNG"⟩)
      = { examplePage with
          alerts := examplePage.alerts ++ ["Please drop a valid HTML file."] } :=
  ⟨((loadFile_accepts_html_only examplePage (some ⟨"text/html", "<b>x</b>"⟩)).1
      ⟨"text/html", "<b>x</b>"⟩ rfl rfl).1,
   ((loadFile_accepts_html_only examplePage (some ⟨"image/png", "PNG"⟩)).2
      (Or.inr ⟨⟨"image/png", "PNG"⟩, rfl, by decide⟩)).1⟩

/-- C6, counterexample: an HTML file with a CRLF line break, dropped or
picked, leaves the raw-HTML field reading the text with an LF in its place,
not the full text of the file. -/
theorem loadFile_crlf_not_verbatim :
    (dropListener examplePage (some ⟨"text/html", "<p>a</p>\r\n<p>b</p>"⟩)).rawHtmlValue
      = "<p>a</p>\n<p>b</p>" ∧
    (dropListener examplePage (some ⟨"text/html", "<p>a</p>\r\n<p>b</p>"⟩)).rawHtmlValue
      ≠ "<p>a</p>\r\n<p>b</p>" ∧
    (fileInputListener examplePage (some ⟨"text/html", "<p>a</p>\r\n<p>b</p>"⟩)).rawHtmlValue
      ≠ "<p>a</p>\r\n<p>b</p>" := by
  decide

/-! ## Persistence and startup -/

/-- The URL restore as one record update. -/
theorem restoreUrl_eq (s : State) :
    restoreUrl s
      = { s with urlValue := savedOr s.urlSanitize.read (s.localStorage "url") s.urlValue } := by
  unfold restoreUrl
  cases h : s.localStorage "url" with
  | none => simp [truthy, savedOr]
  | some v => by_cases hv : v = "" <;> simp [truthy, savedOr, hv]

/-- The raw-HTML restore as one record update. -/
theorem restoreRawHtml_eq (s : State) :
    restoreRawHtml s
      = { s with
          rawHtmlValue := savedOr normalizeNewlines (s.localStorage "rawHtml") s.rawHtmlValue } := by
  unfold restoreRawHtml
  cases h : s.localStorage "rawHtml" with
  | none => simp [truthy, savedOr]
  | some v => by_cases hv : v = "" <;> simp [truthy, savedOr, hv]

/-- The instruction restore as one record update. -/
theorem restoreInstruction_eq (s : State) :
    restoreInstruction s
      = { s with
          instructionValue :=
            savedOr s.instructionSanitize.read (s.localStorage "instruction")
              s.instructionValue } := by
  unfold restoreInstruction
  cases h : s.localStorage "instruction" with
  | none => simp [truthy, savedOr]
  | some v => by_cases hv : v = "" <;> simp [truthy, savedOr, hv]

/-- The selector after the model restore. -/
theorem restoreModel_modelValue (s : State) :
    (restoreModel s).modelValue
      = savedModel (s.localStorage "model") s.modelOptions s.modelValue := by
  unfold restoreModel
  cases h : s.localStorage "model" with
  | none => simp [truthy, savedModel]
  | some v =>
    by_cases hv : v = "" <;>
      simp [truthy, savedModel, hv, updateModelDescription, setModelValue]

/-- The theme restore as one record update. -/
theorem restoreTheme_eq (s : State) :
    restoreTheme s
      = { s with
          dataTheme := some (savedOr (fun v => v) (s.localStorage "theme") "light")
          themeChecked := savedOr (fun v => v) (s.localStorage "theme") "light" == "dark" } := by
  unfold restoreTheme
  cases h : s.localStorage "theme" with
  | none => simp [truthy, savedOr]
  | some v => by_cases hv : v = "" <;> simp [truthy, savedOr, hv]

/-- What the model restore leaves alone. -/
theorem restoreModel_frame (s : State) :
    (restoreModel s).urlValue = s.urlValue ∧
    (restoreModel s).rawHtmlValue = s.rawHtmlValue ∧
    (restoreModel s).instructionValue = s.instructionValue ∧
    (restoreModel s).urlDisabled = s.urlDisabled ∧
    (restoreModel s).rawHtmlDisabled = s.rawHtmlDisabled ∧
    (restoreModel s).inputType = s.inputType ∧
    (restoreModel s).modelOptions = s.modelOptions ∧
    (restoreModel s).localStorage = s.localStorage ∧
    (restoreModel s).inheritedText = s.inheritedText := by
  unfold restoreModel
  split_ifs <;> simp [updateModelDescription, setModelValue]

/-- The page after the whole restore block, control by control. -/
theorem restoreSaved_fields (s : State) :
    (restoreSaved s).urlValue = savedOr s.urlSanitize.read (s.localStorage "url") s.urlValue ∧
    (restoreSaved s).rawHtmlValue
      = savedOr normalizeNewlines (s.localStorage "rawHtml") s.rawHtmlValue ∧
    (restoreSaved s).instructionValue
      = savedOr s.instructionSanitize.read (s.localStorage "instruction") s.instructionValue ∧
    (restoreSaved s).modelValue
      = savedModel (s.localStorage "model") s.modelOptions s.modelValue ∧
    (restoreSaved s).dataTheme = some (savedOr (fun v => v) (s.localStorage "theme") "light") ∧
    (restoreSaved s).themeChecked
      = (savedOr (fun v => v) (s.localStorage "theme") "light" == "dark") ∧
    (restoreSaved s).inputType = s.inputType ∧
    (restoreSaved s).urlDisabled = s.urlDisabled ∧
    (restoreSaved s).rawHtmlDisabled = s.rawHtmlDisabled ∧
    (restoreSaved s).modelOptions = s.modelOptions ∧
    (restoreSaved s).localStorage = s.localStorage ∧
    (restoreSaved s).inheritedText = s.inheritedText := by
  have hm := restoreModel_frame (restoreInstruction (restoreRawHtml (restoreUrl s)))
  have hv := restoreModel_modelValue (restoreInstruction (restoreRawHtml (restoreUrl s)))
  obtain ⟨h1, h2, h3, h4, h5, h6, h7, h8, h9⟩ := hm
  simp only [restoreSaved, restoreTheme_eq]
  simp only [h1, h2, h3, h4, h5, h6, h7, h8, h9, hv]
  simp only [restoreInstruction_eq, restoreRawHtml_eq, restoreUrl_eq]
  simp

/-- What `updateInputModeUI` leaves alone. -/
theorem updateInputModeUI_frame (s : State) :
    (updateInputModeUI s).instructionValue = s.instructionValue ∧
    (updateInputModeUI s).modelValue = s.modelValue ∧
    (updateInputModeUI s).modelOptions = s.modelOptions ∧
    (updateInputModeUI s).dataTheme = s.dataTheme ∧
    (updateInputModeUI s).themeChecked = s.themeChecked ∧
    (updateInputModeUI s).inputType = s.inputType ∧
    (updateInputModeUI s).localStorage = s.localStorage ∧
    (updateInputModeUI s).inheritedText = s.inheritedText := by
  unfold updateInputModeUI
  cases h : s.inputType with
  | none => simp [h]
  | some value => by_cases hv : value = "url" <;> simp [hv, h]

/-- The field of the checked mode keeps its value through `updateInputModeUI`,
and with no radio checked both fields do. -/
theorem updateInputModeUI_values (s : State) :
    (s.inputType = none →
      (updateInputModeUI s).urlValue = s.urlValue ∧
      (updateInputModeUI s).rawHtmlValue = s.rawHtmlValue) ∧
    (s.inputType = some "url" → (updateInputModeUI s).urlValue = s.urlValue) ∧
    (∀ value, s.inputType = some value → value ≠ "url" →
      (updateInputModeUI s).rawHtmlValue = s.rawHtmlValue) := by
  refine ⟨?_, ?_, ?_⟩
  · intro h; simp [updateInputModeUI, h]
  · intro h; simp [updateInputModeUI, h]
  · intro value h hv; simp [updateInputModeUI, h, hv]

/-- The page after `DOMContentLoaded`, in terms of the restore block and the
mode step. -/
theorem domContentLoaded_fields (env : Env) (s : State) :
    (domContentLoaded env s).urlValue = (updateInputModeUI (restoreSaved s)).urlValue ∧
    (domContentLoaded env s).rawHtmlValue = (updateInputModeUI (restoreSaved s)).rawHtmlValue ∧
    (domContentLoaded env s).urlDisabled = (updateInputModeUI (restoreSaved s)).urlDisabled ∧
    (domContentLoaded env s).rawHtmlDisabled
      = (updateInputModeUI (restoreSaved s)).rawHtmlDisabled ∧
    (domContentLoaded env s).instructionValue = (restoreSaved s).instructionValue ∧
    (domContentLoaded env s).modelValue = (restoreSaved s).modelValue ∧
    (domContentLoaded env s).modelDescText
      = (match modelDescriptions (restoreSaved s).modelValue with
        | some text => text
        | none => (s.inheritedText (restoreSaved s).modelValue).getD "") ∧
    (domContentLoaded env s).dataTheme = (restoreSaved s).dataTheme ∧
    (domContentLoaded env s).themeChecked = (restoreSaved s).themeChecked ∧
    (domContentLoaded env s).inputType = s.inputType ∧
    (domContentLoaded env s).localStorage = s.localStorage := by
  obtain ⟨h1, h2, _, h4, h5, h6, h7, h8⟩ := updateInputModeUI_frame (restoreSaved s)
  obtain ⟨_, _, _, _, _, _, g7, _, _, _, g11, g12⟩ := restoreSaved_fields s
  simp [domContentLoaded, autoExpandTextarea, updateModelDescription, describe,
    h1, h2, h4, h5, h6, h7, h8, g7, g11, g12]

/-- C7: for each of the four model ids, when the page offers it: after the
model-change listener has run with that value, a page load against the store
it left shows the id in the model selector and the entry of `modelDescriptions`
for the id as description. -/
theorem model_survives_reload (env : Env) (page s : State) (m : String)
    (hm : m ∈ ["nous-hermes", "mistral", "llama3", "openhermes"])
    (hoffered : m ∈ page.modelOptions) :
    (reload env page (modelSelectListener { s with modelValue := m })).modelValue = m ∧
    modelDescriptions m
      = some (reload env page (modelSelectListener { s with modelValue := m })).modelDescText := by
  have hstore : (modelSelectListener { s with modelValue := m }).localStorage "model"
      = some m := by
    simp [modelSelectListener, updateModelDescription, setItem]
  have hne : m ≠ "" := by
    intro h
    subst h
    simp at hm
  obtain ⟨_, _, _, _, _, f6, f7, _, _, _, _⟩ := domContentLoaded_fields env
    { page with localStorage := (modelSelectListener { s with modelValue := m }).localStorage }
  obtain ⟨_, _, _, g4, _⟩ := restoreSaved_fields
    { page with localStorage := (modelSelectListener { s with modelValue := m }).localStorage }
  have hval : (reload env page (modelSelectListener { s with modelValue := m })).modelValue
      = m := by
    unfold reload
    rw [f6, g4]
    simp [savedModel, hstore, hne, hoffered]
  refine ⟨hval, ?_⟩
  have hval2 := hval
  unfold reload at hval2 ⊢
  rw [f7, ← f6, hval2]
  simp only [List.mem_cons, List.mem_singleton, List.not_mem_nil, or_false] at hm
  rcases hm with h | h | h | h <;> subst h <;> rfl

/-- C7, witness: `llama3` chosen on the example page, then a reload. -/
theorem model_survives_reload_witness :
    (reload (exampleEnv (.rejected "offline")) examplePage
        (modelSelectListener { examplePage with modelValue := "llama3" })).modelValue
      = "llama3" ∧
    modelDescriptions "llama3"
      = some (reload (exampleEnv (.rejected "offline")) examplePage
          (modelSelectListener { examplePage with modelValue := "llama3" })).modelDescText :=
  model_survives_reload (exampleEnv (.rejected "offline")) examplePage examplePage "llama3"
    (by decide) (by decide)

/-- C9 (as amended): after the startup sequence the instruction field holds the
stored instruction, as the control reads it back, when there is one and it is
not empty, else its default; the model selector holds the stored model when it
is not empty and one of its options, nothing when it is not empty and not an
option, else its default; the theme is the stored theme when not empty, else
`light`; and the input field of the checked mode (the URL field for the URL
radio, the raw-HTML field for another one, both when no radio is checked)
holds its stored value as the control reads it back, the raw-HTML text area
reading every CRLF and CR as LF, when there is one and it is not empty, else
its default.  The field of the other mode is not part of the statement. -/
theorem domContentLoaded_restores (env : Env) (s : State) :
    (domContentLoaded env s).instructionValue
      = savedOr s.instructionSanitize.read (s.localStorage "instruction") s.instructionValue ∧
    (domContentLoaded env s).modelValue
      = savedModel (s.localStorage "model") s.modelOptions s.modelValue ∧
    (domContentLoaded env s).dataTheme
      = some (savedOr (fun v => v) (s.localStorage "theme") "light") ∧
    (s.inputType = none →
      (domContentLoaded env s).urlValue
        = savedOr s.urlSanitize.read (s.localStorage "url") s.urlValue ∧
      (domContentLoaded env s).rawHtmlValue
        = savedOr normalizeNewlines (s.localStorage "rawHtml") s.rawHtmlValue) ∧
    (s.inputType = some "url" →
      (domContentLoaded env s).urlValue
        = savedOr s.urlSanitize.read (s.localStorage "url") s.urlValue) ∧
    (∀ value, s.inputType = some value → value ≠ "url" →
      (domContentLoaded env s).rawHtmlValue
        = savedOr normalizeNewlines (s.localStorage "rawHtml") s.rawHtmlValue) := by
  obtain ⟨f1, f2, _, _, f5, f6, _, f8, _, _, _⟩ := domContentLoaded_fields env s
  obtain ⟨g1, g2, g3, g4, g5, _, g7, _⟩ := restoreSaved_fields s
  obtain ⟨u1, u2, u3⟩ := updateInputModeUI_values (restoreSaved s)
  rw [g7] at u1 u2 u3
  refine ⟨by rw [f5, g3], by rw [f6, g4], by rw [f8, g5], ?_, ?_, ?_⟩
  · intro h
    rw [f1, f2, (u1 h).1, (u1 h).2, g1, g2]
    exact ⟨rfl, rfl⟩
  · intro h
    rw [f1, u2 h, g1]
  · intro value h hv
    rw [f2, u3 value h hv, g2]

/-- C9, counterexample: the page `storedPage` presets the instruction
`Summarize the page`; its store holds an empty instruction and a model that is
not offered.  After startup the instruction field shows the preset although
the stored instruction is the empty string, and the model selector shows
nothing although `model` is stored.  On `crlfStoredPage` the raw radio is
checked and `rawHtml` is stored with a CRLF; after startup the raw-HTML field
reads it with an LF, not the stored value. -/
theorem domContentLoaded_drops_saved :
    storedPage.localStorage "instruction" = some "" ∧
    (domContentLoaded (exampleEnv (.rejected "offline")) storedPage).instructionValue
      = "Summarize the page" ∧
    storedPage.localStorage "model" = some "retired-model" ∧
    (domContentLoaded (exampleEnv (.rejected "offline")) storedPage).modelValue = "" ∧
    crlfStoredPage.inputType = some "raw" ∧
    crlfStoredPage.localStorage "rawHtml" = some "a\r\nb" ∧
    (domContentLoaded (exampleEnv (.rejected "offline")) crlfStoredPage).rawHtmlValue
      = "a\nb" ∧
    (domContentLoaded (exampleEnv (.rejected "offline")) crlfStoredPage).rawHtmlValue
      ≠ "a\r\nb" := by
  decide

/-- C9, witness: on `crlfStoredPage`, raw-HTML mode, the raw-HTML field holds
the stored text as the text area reads it. -/
theorem domContentLoaded_restores_witness :
    (domContentLoaded (exampleEnv (.rejected "offline")) crlfStoredPage).rawHtmlValue
      = savedOr normalizeNewlines (crlfStoredPage.localStorage "rawHtml")
          crlfStoredPage.rawHtmlValue :=
  (domContentLoaded_restores (exampleEnv (.rejected "offline")) crlfStoredPage).2.2.2.2.2
    "raw" rfl (by decide)

/-- What `submitData` leaves alone. -/
theorem submitData_frame (env : Env) (s : State) :
    (submitData env s).urlValue = s.urlValue ∧
    (submitData env s).urlDisabled = s.urlDisabled ∧
    (submitData env s).rawHtmlValue = s.rawHtmlValue ∧
    (submitData env s).rawHtmlDisabled = s.rawHtmlDisabled ∧
    (submitData env s).inputType = s.inputType ∧
    (submitData env s).themeChecked = s.themeChecked ∧
    (submitData env s).dataTheme = s.dataTheme ∧
    (submitData env s).localStorage = s.localStorage := by
  cases h : s.inputType with
  | none => simp [submitData, submitTry, autoExpandTextarea, h]
  | some mode =>
    have h0 : State.inputType
        { s with
          submitDisabled := true
          submitText := "⏳ Thinking..."
          outputValue := normalizeNewlines "" }
        = some mode := h
    simp only [submitData, submitTry_of_checked env _ mode h0]
    cases env.fetch (processRequest
        { s with
          submitDisabled := true
          submitText := "⏳ Thinking..."
          outputValue := normalizeNewlines "" }
        mode) with
    | rejected m => simp [autoExpandTextarea, h]
    | response status json =>
      cases hok : ok status <;> cases json <;> simp [autoExpandTextarea, hok, h]

/-! ## Theme -/

/-- Every action keeps the switch in agreement with the document theme. -/
theorem themeSync_act (s : State) (a : Action) (h : ThemeSync s) : ThemeSync (act s a) := by
  unfold ThemeSync at h ⊢
  cases a with
  | chooseInputType value =>
    obtain ⟨_, _, _, h4, h5, _, _, _⟩ :=
      updateInputModeUI_frame { s with inputType := some value }
    simp only [act, inputTypeListener, h4, h5]
    exact h
  | editUrl text =>
    simp only [act]
    split_ifs
    · exact h
    · simpa [urlInputListener, setItem] using h
  | editRawHtml text =>
    simp only [act]
    split_ifs
    · exact h
    · simpa [rawHtmlInputListener, setItem] using h
  | editInstruction text => simpa [act, instructionInputListener, setItem] using h
  | chooseModel value =>
    simp only [act]
    split_ifs
    · simpa [modelSelectListener, updateModelDescription, setModelValue, setItem] using h
    · exact h
  | drop file =>
    rcases file with _ | f
    · simpa [act, dropListener, loadFile] using h
    · by_cases hf : f.type = "text/html"
      · obtain ⟨_, _, _, h4, h5, _, _, _⟩ := updateInputModeUI_frame
          { s with
            rawHtmlValue := normalizeNewlines f.text
            alerts := s.alerts ++ ["HTML file loaded into raw HTML textarea."]
            inputType := some "raw" }
        simp only [act, dropListener, loadFile, hf, if_true, h4, h5]
        exact h
      · simpa [act, dropListener, loadFile, hf] using h
  | pick file =>
    rcases file with _ | f
    · simpa [act, fileInputListener, loadFile] using h
    · by_cases hf : f.type = "text/html"
      · obtain ⟨_, _, _, h4, h5, _, _, _⟩ := updateInputModeUI_frame
          { s with
            rawHtmlValue := normalizeNewlines f.text
            alerts := s.alerts ++ ["HTML file loaded into raw HTML textarea."]
            inputType := some "raw" }
        simp only [act, fileInputListener, loadFile, hf, if_true, h4, h5]
        exact h
      · simpa [act, fileInputListener, loadFile, hf] using h
  | preset text => simpa [act, setInstruction, setItem] using h
  | submit env =>
    obtain ⟨_, _, _, _, _, h1, h2, _⟩ := submitData_frame env s
    simp only [act, h1, h2]
    exact h
  | toggleTheme =>
    cases hc : s.themeChecked <;> simp [act, themeToggleListener, setItem, hc]

/-- A property kept by every action holds after every sequence of actions. -/
theorem run_induction (P : State → Prop) (hact : ∀ s a, P s → P (act s a))
    (actions : List Action) : ∀ s, P s → P (run s actions) := by
  induction actions with
  | nil => intro s h; exact h
  | cons a rest ih => intro s h; exact ih (act s a) (hact s a h)

/-- Startup leaves the switch in agreement with the document theme. -/
theorem themeSync_domContentLoaded (env : Env) (s : State) :
    ThemeSync (domContentLoaded env s) := by
  obtain ⟨_, _, _, _, _, _, _, f8, f9, _, _⟩ := domContentLoaded_fields env s
  obtain ⟨_, _, _, _, g5, g6, _⟩ := restoreSaved_fields s
  unfold ThemeSync
  rw [f8, f9, g5, g6]
  simp

/-- C8: the theme listener sets the document theme and the stored `theme` to
`dark` when the switch is checked and to `light` when it is not, and changes
nothing else of the page or the store.  So from an unchecked switch one flip
gives `dark` and a second flip gives `light` again, both on the document and
in the store.  On a loaded page the switch is unchecked whenever the theme is
`light`. -/
theorem themeToggle_spec (s : State) :
    (themeToggleListener s).dataTheme = some (if s.themeChecked then "dark" else "light") ∧
    (themeToggleListener s).localStorage "theme"
      = some (if s.themeChecked then "dark" else "light") ∧
    (∀ key, key ≠ "theme" → (themeToggleListener s).localStorage key = s.localStorage key) ∧
    themeToggleListener s
      = { s with
          dataTheme := (themeToggleListener s).dataTheme
          localStorage := (themeToggleListener s).localStorage } ∧
    (s.themeChecked = false →
      (act s .toggleTheme).dataTheme = some "dark" ∧
      (act s .toggleTheme).localStorage "theme" = some "dark" ∧
      (act (act s .toggleTheme) .toggleTheme).dataTheme = some "light" ∧
      (act (act s .toggleTheme) .toggleTheme).localStorage "theme" = some "light") ∧
    (∀ env page old actions, s = run (reload env page old) actions →
      s.dataTheme = some "light" → s.themeChecked = false) := by
  refine ⟨rfl, ?_, ?_, rfl, ?_, ?_⟩
  · simp [themeToggleListener, setItem]
  · intro key hkey
    simp [themeToggleListener, setItem, hkey]
  · intro h
    simp [act, themeToggleListener, setItem, h]
  · intro env page old actions hs hlight
    have hsync : ThemeSync s := by
      rw [hs]
      exact run_induction ThemeSync themeSync_act actions _
        (themeSync_domContentLoaded env _)
    unfold ThemeSync at hsync
    cases hc : s.themeChecked with
    | false => rfl
    | true =>
      have := hsync.1 hc
      rw [hlight] at this
      simp at this

/-- C8, witness: two flips on the loaded example page. -/
theorem themeToggle_spec_witness :
    (act examplePage .toggleTheme).dataTheme = some "dark" ∧
    (act examplePage .toggleTheme).localStorage "theme" = some "dark" ∧
    (act (act examplePage .toggleTheme) .toggleTheme).dataTheme = some "light" ∧
    (act (act examplePage .toggleTheme) .toggleTheme).localStorage "theme" = some "light" :=
  (themeToggle_spec examplePage).2.2.2.2.1 rfl

/-! ## Mutual exclusion of the input fields -/

/-- The mode step establishes the invariant, whatever the state before. -/
theorem modeInvariant_updateInputModeUI (s : State) : ModeInvariant (updateInputModeUI s) := by
  unfold ModeInvariant updateInputModeUI
  cases h : s.inputType with
  | none => simp [h]
  | some v =>
    by_cases hv : v = "url"
    · simp [hv, h, normalizeNewlines_empty]
    · simp only [hv, if_false]
      intro value hval
      simp only [h, Option.some.injEq] at hval
      subst hval
      simp [hv, s.urlSanitize.read_empty]

/-- A state that agrees with one satisfying the invariant on the radio, the
two enabled flags and the value of each disabled field satisfies it. -/
theorem modeInvariant_of_agree (s t : State) (h : ModeInvariant s)
    (hi : t.inputType = s.inputType) (hu : t.urlDisabled = s.urlDisabled)
    (hr : t.rawHtmlDisabled = s.rawHtmlDisabled)
    (hur : s.urlDisabled = true → t.urlValue = s.urlValue)
    (hrr : s.rawHtmlDisabled = true → t.rawHtmlValue = s.rawHtmlValue) :
    ModeInvariant t := by
  unfold ModeInvariant at h ⊢
  intro value hval
  rw [hi] at hval
  obtain ⟨h1, h2⟩ := h value hval
  constructor
  · intro hv
    obtain ⟨a, b, c⟩ := h1 hv
    exact ⟨hu ▸ a, hr ▸ b, (hrr b).trans c⟩
  · intro hv
    obtain ⟨a, b, c⟩ := h2 hv
    exact ⟨hr ▸ a, hu ▸ b, (hur b).trans c⟩

/-- Every action keeps the invariant. -/
theorem modeInvariant_act (s : State) (a : Action) (h : ModeInvariant s) :
    ModeInvariant (act s a) := by
  cases a with
  | chooseInputType value => exact modeInvariant_updateInputModeUI _
  | editUrl text =>
    simp only [act]
    split_ifs with hd
    · exact h
    · exact modeInvariant_of_agree s _ h rfl rfl rfl (fun hc => absurd hc hd) (fun _ => rfl)
  | editRawHtml text =>
    simp only [act]
    split_ifs with hd
    · exact h
    · exact modeInvariant_of_agree s _ h rfl rfl rfl (fun _ => rfl) (fun hc => absurd hc hd)
  | editInstruction text =>
    exact modeInvariant_of_agree s _ h rfl rfl rfl (fun _ => rfl) (fun _ => rfl)
  | chooseModel value =>
    simp only [act]
    split_ifs
    · exact modeInvariant_of_agree s _ h rfl rfl rfl (fun _ => rfl) (fun _ => rfl)
    · exact h
  | drop file =>
    rcases file with _ | f
    · exact modeInvariant_of_agree s _ h rfl rfl rfl (fun _ => rfl) (fun _ => rfl)
    · by_cases hf : f.type = "text/html"
      · simp only [act, dropListener, loadFile, hf, if_true]
        exact modeInvariant_updateInputModeUI _
      · simp only [act, dropListener, loadFile, hf, if_false]
        exact modeInvariant_of_agree s _ h rfl rfl rfl (fun _ => rfl) (fun _ => rfl)
  | pick file =>
    rcases file with _ | f
    · exact modeInvariant_of_agree s _ h rfl rfl rfl (fun _ => rfl) (fun _ => rfl)
    · by_cases hf : f.type = "text/html"
      · simp only [act, fileInputListener, loadFile, hf, if_true]
        exact modeInvariant_updateInputModeUI _
      · simp only [act, fileInputListener, loadFile, hf, if_false]
        exact modeInvariant_of_agree s _ h rfl rfl rfl (fun _ => rfl) (fun _ => rfl)
  | preset text =>
    exact modeInvariant_of_agree s _ h rfl rfl rfl (fun _ => rfl) (fun _ => rfl)
  | submit env =>
    obtain ⟨h1, h2, h3, h4, h5, _⟩ := submitData_frame env s
    exact modeInvariant_of_agree s _ h h5 h2 h4 (fun _ => h1) (fun _ => h3)
  | toggleTheme =>
    exact modeInvariant_of_agree s _ h rfl rfl rfl (fun _ => rfl) (fun _ => rfl)

/-- Startup establishes the invariant. -/
theorem modeInvariant_domContentLoaded (env : Env) (s : State) :
    ModeInvariant (domContentLoaded env s) :=
  modeInvariant_of_agree (updateInputModeUI (restoreSaved s)) _
    (modeInvariant_updateInputModeUI _) rfl rfl rfl (fun _ => rfl) (fun _ => rfl)

/-- No action unchecks the radio group. -/
theorem inputType_isSome_act (s : State) (a : Action) (h : s.inputType ≠ none) :
    (act s a).inputType ≠ none := by
  cases a with
  | chooseInputType value =>
    have := (updateInputModeUI_frame { s with inputType := some value }).2.2.2.2.2.1
    simp only [act, inputTypeListener, this]
    simp
  | editUrl text => simp only [act]; split_ifs <;> exact h
  | editRawHtml text => simp only [act]; split_ifs <;> exact h
  | editInstruction text => exact h
  | chooseModel value => simp only [act]; split_ifs <;> exact h
  | drop file =>
    rcases file with _ | f
    · exact h
    · by_cases hf : f.type = "text/html"
      · simp only [act, dropListener, loadFile, hf, if_true]
        rw [(updateInputModeUI_frame _).2.2.2.2.2.1]
        simp
      · simp only [act, dropListener, loadFile, hf, if_false]
        exact h
  | pick file =>
    rcases file with _ | f
    · exact h
    · by_cases hf : f.type = "text/html"
      · simp only [act, fileInputListener, loadFile, hf, if_true]
        rw [(updateInputModeUI_frame _).2.2.2.2.2.1]
        simp
      · simp only [act, fileInputListener, loadFile, hf, if_false]
        exact h
  | preset text => exact h
  | submit env =>
    simp only [act]
    rw [(submitData_frame env s).2.2.2.2.1]
    exact h
  | toggleTheme => exact h

/-- C10 (as amended): in every state reached from a page load by any sequence
of actions, whenever a radio is checked exactly one of the two input fields is
enabled, it is the field of the checked mode, and the other field is empty; and
a radio checked in the markup stays checked, so on such a page this holds in
every reached state. -/
theorem mode_exclusive_when_checked (env : Env) (page old : State) (actions : List Action) :
    (∀ value, (run (reload env page old) actions).inputType = some value →
      (run (reload env page old) actions).urlDisabled
        = !(run (reload env page old) actions).rawHtmlDisabled ∧
      (value = "url" →
        (run (reload env page old) actions).urlDisabled = false ∧
        (run (reload env page old) actions).rawHtmlDisabled = true ∧
        (run (reload env page old) actions).rawHtmlValue = "") ∧
      (value ≠ "url" →
        (run (reload env page old) actions).rawHtmlDisabled = false ∧
        (run (reload env page old) actions).urlDisabled = true ∧
        (run (reload env page old) actions).urlValue = "")) ∧
    (page.inputType ≠ none → (run (reload env page old) actions).inputType ≠ none) := by
  have hinv : ModeInvariant (run (reload env page old) actions) :=
    run_induction ModeInvariant modeInvariant_act actions _
      (modeInvariant_domContentLoaded env _)
  constructor
  · intro value hval
    obtain ⟨h1, h2⟩ := hinv value hval
    refine ⟨?_, h1, h2⟩
    by_cases hv : value = "url"
    · obtain ⟨a, b, _⟩ := h1 hv
      rw [a, b]
      rfl
    · obtain ⟨a, b, _⟩ := h2 hv
      rw [a, b]
      rfl
  · intro hpage
    refine run_induction (fun s => s.inputType ≠ none) inputType_isSome_act actions _ ?_
    show (domContentLoaded env { page with localStorage := old.localStorage }).inputType ≠ none
    rw [(domContentLoaded_fields env _).2.2.2.2.2.2.2.2.2.1]
    exact hpage

/-- C10, counterexample: on a page whose markup checks no radio and disables
neither field, startup leaves both fields enabled, and after an edit of each
both are still enabled and both hold text. -/
theorem mode_exclusive_fails_unchecked :
    (run (reload (exampleEnv (.rejected "offline")) uncheckedPage uncheckedPage)
      []).inputType = none ∧
    (run (reload (exampleEnv (.rejected "offline")) uncheckedPage uncheckedPage)
      []).urlDisabled = false ∧
    (run (reload (exampleEnv (.rejected "offline")) uncheckedPage uncheckedPage)
      []).rawHtmlDisabled = false ∧
    (run (reload (exampleEnv (.rejected "offline")) uncheckedPage uncheckedPage)
      [.editUrl "https://example.com", .editRawHtml "<p>Hi</p>"]).urlDisabled = false ∧
    (run (reload (exampleEnv (.rejected "offline")) uncheckedPage uncheckedPage)
      [.editUrl "https://example.com", .editRawHtml "<p>Hi</p>"]).rawHtmlDisabled = false ∧
    (run (reload (exampleEnv (.rejected "offline")) uncheckedPage uncheckedPage)
      [.editUrl "https://example.com", .editRawHtml "<p>Hi</p>"]).urlValue
      = "https://example.com" ∧
    (run (reload (exampleEnv (.rejected "offline")) uncheckedPage uncheckedPage)
      [.editUrl "https://example.com", .editRawHtml "<p>Hi</p>"]).rawHtmlValue
      = "<p>Hi</p>" := by
  decide

/-- C10, witness: the example page checks the URL radio; after a file drop and
an edit the raw radio is checked, the raw-HTML field is enabled and the URL
field is disabled and empty. -/
theorem mode_exclusive_when_checked_witness :
    (run (reload (exampleEnv (.rejected "offline")) examplePage examplePage)
      [.editUrl "https://example.com", .drop (some ⟨"text/html", "<p>Hi</p>"⟩)]).inputType
      ≠ none ∧
    (run (reload (exampleEnv (.rejected "offline")) examplePage examplePage)
      [.editUrl "https://example.com", .drop (some ⟨"text/html", "<p>Hi</p>"⟩)]).rawHtmlDisabled
      = false ∧
    (run (reload (exampleEnv (.rejected "offline")) examplePage examplePage)
      [.editUrl "https://example.com", .drop (some ⟨"text/html", "<p>Hi</p>"⟩)]).urlDisabled
      = true ∧
    (run (reload (exampleEnv (.rejected "offline")) examplePage examplePage)
      [.editUrl "https://example.com", .drop (some ⟨"text/html", "<p>Hi</p>"⟩)]).urlValue
      = "" :=
  ⟨(mode_exclusive_when_checked (exampleEnv (.rejected "offline")) examplePage examplePage
      [.editUrl "https://example.com", .drop (some ⟨"text/html", "<p>Hi</p>"⟩)]).2 (by decide),
   ((mode_exclusive_when_checked (exampleEnv (.rejected "offline")) examplePage examplePage
      [.editUrl "https://example.com", .drop (some ⟨"text/html", "<p>Hi</p>"⟩)]).1
      "raw" (by decide)).2.2 (by decide)⟩

/-! ## What `trim` removes -/

/-- The trimmed text is the text without a leading and a trailing run of white
space, and neither starts nor ends with white space. -/
theorem trim_spec (s : String) :
    (∃ pre post : List Char,
      s.data = pre ++ (trim s).data ++ post ∧
      (∀ c ∈ pre, isJsWhiteSpace c = true) ∧ (∀ c ∈ post, isJsWhiteSpace c = true)) ∧
    (∀ c, (trim s).data.head? = some c → isJsWhiteSpace c = false) ∧
    (∀ c, (trim s).data.getLast? = some c → isJsWhiteSpace c = false) := by
  have hd : ∀ l : List Char, ∀ c, (l.dropWhile isJsWhiteSpace).head? = some c →
      isJsWhiteSpace c = false := by
    intro l c hc
    have := List.head?_dropWhile_not isJsWhiteSpace l
    rw [hc] at this
    simpa using this
  have hsplit : (s.data.dropWhile isJsWhiteSpace)
      = trimChars s.data
        ++ ((s.data.dropWhile isJsWhiteSpace).reverse.takeWhile isJsWhiteSpace).reverse := by
    unfold trimChars
    rw [← List.reverse_append, List.takeWhile_append_dropWhile, List.reverse_reverse]
  refine ⟨⟨s.data.takeWhile isJsWhiteSpace,
      ((s.data.dropWhile isJsWhiteSpace).reverse.takeWhile isJsWhiteSpace).reverse,
      ?_, ?_, ?_⟩, ?_, ?_⟩
  · show s.data = _ ++ trimChars s.data ++ _
    rw [List.append_assoc, ← hsplit, List.takeWhile_append_dropWhile]
  · intro c hc
    exact List.mem_takeWhile_imp hc
  · intro c hc
    exact List.mem_takeWhile_imp (List.mem_reverse.mp hc)
  · intro c hc
    change (trimChars s.data).head? = some c at hc
    apply hd s.data c
    rw [hsplit]
    cases ht : trimChars s.data with
    | nil => rw [ht] at hc; simp at hc
    | cons a rest => rw [ht] at hc; simpa using hc
  · intro c hc
    change (trimChars s.data).getLast? = some c at hc
    unfold trimChars at hc
    rw [List.getLast?_reverse] at hc
    exact hd _ c hc


/-! ## Further properties of the listeners -/

/-- With no radio checked `submitData` sends nothing: the null read is caught,
its message is shown behind the failure marker, and the control is enabled
again. -/
theorem submitData_without_mode (env : Env) (s : State) (h : s.inputType = none) :
    (submitData env s).requests = s.requests ∧
    (submitData env s).outputValue = "❌ Error: " ++ normalizeNewlines env.nullReadMessage ∧
    (submitData env s).submitDisabled = false := by
  refine ⟨(submitData_unchecked env s h).2, ?_, submitData_submitDisabled env s⟩
  rw [(submitData_unchecked env s h).1, normalizeNewlines_marker]

/-- The unchecked example page sends nothing. -/
theorem submitData_without_mode_witness :
    (submitData (exampleEnv (.response 200 (.output "X"))) uncheckedPage).requests
      = uncheckedPage.requests ∧
    (submitData (exampleEnv (.response 200 (.output "X"))) uncheckedPage).outputValue
      = "❌ Error: "
        ++ normalizeNewlines (exampleEnv (.response 200 (.output "X"))).nullReadMessage ∧
    (submitData (exampleEnv (.response 200 (.output "X"))) uncheckedPage).submitDisabled
      = false :=
  submitData_without_mode (exampleEnv (.response 200 (.output "X"))) uncheckedPage rfl

/-- A preset assigns the text to the instruction field and stores the text, as
passed, under `instruction`; no other key of the store changes. -/
theorem setInstruction_persists (s : State) (text : String) :
    (setInstruction s text).instructionValue = s.instructionSanitize.read text ∧
    (setInstruction s text).localStorage "instruction" = some text ∧
    (∀ key, key ≠ "instruction" →
      (setInstruction s text).localStorage key = s.localStorage key) := by
  refine ⟨rfl, ?_, ?_⟩
  · simp [setInstruction, setItem]
  · intro key hkey
    simp [setInstruction, setItem, hkey]

/-- An edit of the instruction field, of an enabled URL field, of an enabled
raw-HTML field, and a choice of an offered model, each store the value the
control then reads under the key of the control. -/
theorem edits_persist (s : State) (text : String) :
    (act s (.editInstruction text)).localStorage "instruction"
      = some (act s (.editInstruction text)).instructionValue ∧
    (s.urlDisabled = false →
      (act s (.editUrl text)).localStorage "url" = some (act s (.editUrl text)).urlValue) ∧
    (s.rawHtmlDisabled = false →
      (act s (.editRawHtml text)).localStorage "rawHtml"
        = some (act s (.editRawHtml text)).rawHtmlValue ∧
      (act s (.editRawHtml text)).rawHtmlValue = normalizeNewlines text) ∧
    (text ∈ s.modelOptions → (act s (.chooseModel text)).localStorage "model" = some text) := by
  refine ⟨?_, ?_, ?_, ?_⟩
  · simp [act, instructionInputListener, setItem]
  · intro h
    simp [act, urlInputListener, setItem, h]
  · intro h
    simp [act, rawHtmlInputListener, setItem, h]
  · intro h
    simp [act, modelSelectListener, updateModelDescription, setModelValue, setItem, h]

/-- Loading a file, accepted or not, writes nothing to the store: the text put
in the raw-HTML field is not saved under `rawHtml`. -/
theorem loadFile_leaves_store (s : State) (file : Option File) :
    (dropListener s file).localStorage = s.localStorage ∧
    (fileInputListener s file).localStorage = s.localStorage := by
  rcases file with _ | f
  · exact ⟨rfl, rfl⟩
  · by_cases hf : f.type = "text/html"
    · have hframe := fun t => (updateInputModeUI_frame t).2.2.2.2.2.2.1
      simp [dropListener, fileInputListener, loadFile, hf, hframe]
    · simp [dropListener, fileInputListener, loadFile, hf]

end ZoeScraper
